import Mathlib

/-!
Shallow embedding of `BasicNextStepGenerator` (src/unnamed/part_000) and the
interfaces it consumes, together with proofs of the specification claims.

JavaScript values that flow through the orchestrator (action outputs, parsed
parameters) are modelled by a small JSON value type with a faithful
`JSON.stringify`.  Asynchronous and throwing operations are modelled with
`Except AgentError`.  Observer invocations and the model call are recorded as
an explicit event trace.
-/

namespace AgentCore

/-- JSON values, the fragment of JavaScript data the orchestrator handles
(action outputs are opaque JSON-serialisable data). Numbers are modelled as
integers; none of the verified claims depends on float formatting. -/
inductive Json where
  | null : Json
  | bool (b : Bool) : Json
  | num (n : Int) : Json
  | str (s : String) : Json
  | arr (elements : List Json) : Json
  | obj (fields : List (String × Json)) : Json
deriving Repr

/-- Hexadecimal digit character, lower case, as produced by JavaScript
string escapes. -/
def hexDigit (n : Nat) : Char :=
  if n < 10 then Char.ofNat (48 + n) else Char.ofNat (87 + n)

/-- Four-digit hexadecimal rendering used by the \u escape. -/
def hex4 (n : Nat) : String :=
  String.mk [hexDigit ((n / 4096) % 16), hexDigit ((n / 256) % 16),
    hexDigit ((n / 16) % 16), hexDigit (n % 16)]

/-- Escaping of a single character inside a JSON string literal, following
JSON.stringify: quote, backslash and control characters are escaped, all
other characters pass through. -/
def escapeJsonChar (c : Char) : String :=
  if c = '"' then "\\\"" else
  if c = '\\' then "\\\\" else
  if c = '\n' then "\\n" else
  if c = '\t' then "\\t" else
  if c = '\r' then "\\r" else
  if c.toNat = 8 then "\\b" else
  if c.toNat = 12 then "\\f" else
  if c.toNat < 32 then "\\u" ++ hex4 c.toNat else
  String.singleton c

/-- A JSON string literal: the escaped characters between double quotes. -/
def quoteJsonString (s : String) : String :=
  "\"" ++ String.join (s.data.map escapeJsonChar) ++ "\""

mutual

/-- JavaScript's `JSON.stringify` on the modelled JSON fragment. -/
def Json.stringify : Json → String
  | .null => "null"
  | .bool true => "true"
  | .bool false => "false"
  | .num n => toString n
  | .str s => quoteJsonString s
  | .arr xs => "[" ++ Json.stringifyArray xs ++ "]"
  | .obj fs => "\x7b" ++ Json.stringifyFields fs ++ "\x7d"

/-- Comma-separated serialisation of a JSON array's elements. -/
def Json.stringifyArray : List Json → String
  | [] => ""
  | [x] => Json.stringify x
  | x :: y :: xs => Json.stringify x ++ "," ++ Json.stringifyArray (y :: xs)

/-- Comma-separated serialisation of a JSON object's fields, in insertion
order as JSON.stringify does. -/
def Json.stringifyFields : List (String × Json) → String
  | [] => ""
  | [(k, v)] => quoteJsonString k ++ ":" ++ Json.stringify v
  | (k, v) :: f :: fs =>
      quoteJsonString k ++ ":" ++ Json.stringify v ++ "," ++ Json.stringifyFields (f :: fs)

end

/-- Failures that JavaScript exceptions / rejected promises are modelled by:
a zod validation error (thrown by `schema.parse` in `formatOutput`) or any
other thrown error value, carried as its message text. -/
inductive AgentError where
  | zodError (detail : String)
  | thrown (detail : String)
deriving Repr, DecidableEq

/-- Message text of a captured error value. -/
def AgentError.message : AgentError → String
  | .zodError d => d
  | .thrown d => d

/-- The state of a completed step: the tagged variant
`failed {summary}` / `succeeded {output?, summary}` of the data model. -/
inductive StepState where
  | failed (summary : String)
  | succeeded (output : Option Json) (summary : String)
deriving Repr

/-- A Step record as the orchestrator reads it: its `type` tag, the raw
model text it was generated from (absent for steps synthesised without a
model call), and its state. -/
structure Step where
  type : String
  generatedText : Option String
  state : StepState
deriving Repr

/-- The summary carried by a step's state, whichever variant it is. -/
def Step.summary (s : Step) : String :=
  match s.state with
  | .failed summary => summary
  | .succeeded _ summary => summary

/-- One entry of the chat transcript (`OpenAIChatMessage`):
a role (`"system"`, `"user"` or `"assistant"`) and its content. -/
structure OpenAIChatMessage where
  role : String
  content : String
deriving Repr, DecidableEq

/-- The Agent Run context the orchestrator reads: the task instructions and
whether an observer is attached (`run.observer?` — only presence matters for
the modelled control flow; the hooks' invocations are recorded as events). -/
structure AgentRun where
  instructions : String
  observerPresent : Bool
deriving Repr

/-- The record `format.parse` produces from raw model text: an optional
action identifier, the free-text remainder `_freeText`, and the remaining
action-specific named fields. -/
structure ActionParameters where
  action : Option String
  _freeText : String
  fields : List (String × Json)
deriving Repr

/-- An action handler: `createStep({generatedText, input})`, asynchronous and
fallible, modelled as an `Except`-valued function of the two arguments. -/
structure Action where
  createStep : String → ActionParameters → Except AgentError Step

/-- The registry's shared structured-output format: its `parse` turns raw
model text into `ActionParameters` (throwing on unparseable text). -/
structure ActionFormat where
  parse : String → Except AgentError ActionParameters

/-- The Action Registry surface the orchestrator consumes:
`getAvailableActionInstructions()` (a pure string), the shared `format`, and
`getAction(id)` which throws a lookup error for unknown identifiers. -/
structure ActionRegistry where
  getAvailableActionInstructions : String
  format : ActionFormat
  getAction : String → Except AgentError Action

/-- A result formatter: its declared zod `outputSchema`, modelled as the
validation predicate the schema decides, and `formatResult({result:
{summary, output}})`. -/
structure ResultFormatter where
  outputSchema : Json → Bool
  formatResult : String → Json → String

/-- The Result Formatter Registry surface the orchestrator consumes:
`getResultFormatter(stepType)`, absent when no formatter is registered. -/
structure ResultFormatterRegistry where
  getResultFormatter : String → Option ResultFormatter

/-- Modelled from the spec: the `ResultFormatterRegistry` class itself is not
under src/; per the spec a freshly constructed registry is empty
("`resultFormatterRegistry` is optional and defaults to an empty registry"). -/
def ResultFormatterRegistry.empty : ResultFormatterRegistry :=
  ⟨fun _ => none⟩

/-- The Chat Text Generator collaborator: `generateText` is called by the
orchestrator with the transcript (and the run as second argument at the call
site); it is asynchronous and may fail with a backend error. -/
structure ChatTextGenerator where
  generateText : List OpenAIChatMessage → AgentRun → Except AgentError String

/-- The orchestrator's fields, as assigned by the constructor. -/
structure BasicNextStepGenerator where
  role : String
  constraints : String
  actionRegistry : ActionRegistry
  textGenerator : ChatTextGenerator
  resultFormatterRegistry : ResultFormatterRegistry

/-- The constructor of `BasicNextStepGenerator`: arguments that may be
null/undefined are `Option`s; the destructuring default supplies an empty
`ResultFormatterRegistry` when the argument is omitted; each required
argument is checked in source order and a missing one throws
`<name> is required`. -/
def BasicNextStepGenerator.construct
    (role : Option String) (constraints : Option String)
    (actionRegistry : Option ActionRegistry)
    (textGenerator : Option ChatTextGenerator)
    (resultFormatterRegistry : Option ResultFormatterRegistry) :
    Except AgentError BasicNextStepGenerator :=
  let rfr := resultFormatterRegistry.getD ResultFormatterRegistry.empty
  match role with
  | none => .error (.thrown "role is required")
  | some role =>
    match constraints with
    | none => .error (.thrown "constraints is required")
    | some constraints =>
      match actionRegistry with
      | none => .error (.thrown "actionRegistry is required")
      | some actionRegistry =>
        match textGenerator with
        | none => .error (.thrown "textGenerator is required")
        | some textGenerator =>
          .ok { role := role, constraints := constraints,
                actionRegistry := actionRegistry,
                textGenerator := textGenerator,
                resultFormatterRegistry := rfr }

/-- Modelled from the spec: the `ErrorStep` class is not under src/; per the
spec it is an error Step carrying the raw generated text and the captured
failure (rendered into the transcript through its `failed` state). -/
def mkErrorStep (generatedText : String) (error : AgentError) : Step :=
  { type := "error", generatedText := some generatedText,
    state := .failed error.message }

/-- Modelled from the spec: the `NoopStep` class is not under src/; per the
spec a no-op/thought step has the given type tag, carries the raw generated
text, and has a succeeded state with no output and the given summary. -/
def mkNoopStep (type : String) (generatedText : String) (summary : String) : Step :=
  { type := type, generatedText := some generatedText,
    state := .succeeded none summary }

/-- The content of the leading system message (source lines 70-80): the
template literal with ROLE, CONSTRAINTS (followed by the literal `;` of the
template) and AVAILABLE ACTIONS sections. -/
def systemPrompt (g : BasicNextStepGenerator) : String :=
  "## ROLE\n" ++ g.role ++ "\n\n## CONSTRAINTS\n" ++ g.constraints ++
    ";\n\n## AVAILABLE ACTIONS\n" ++ g.actionRegistry.getAvailableActionInstructions

/-- The two messages `generateMessages` starts from: the system prompt and
the `## TASK` user message (source lines 69-82). -/
def initialMessages (g : BasicNextStepGenerator) (run : AgentRun) :
    List OpenAIChatMessage :=
  [⟨"system", systemPrompt g⟩, ⟨"user", "## TASK\n" ++ run.instructions⟩]

/-- `formatOutput` (source lines 132-152): build the zod schema
`object {output: resultFormatter.outputSchema, summary: string}`, parse the
step state against it, and on success call `formatResult`.  The parse fails
(throws a ZodError) when the output key is absent or does not satisfy the
declared output schema; the summary is a string by construction. -/
def formatOutput (resultFormatter : ResultFormatter) (result : StepState) :
    Except AgentError String :=
  match result with
  | .succeeded (some output) summary =>
      if resultFormatter.outputSchema output then
        .ok (resultFormatter.formatResult summary output)
      else
        .error (.zodError "output does not match outputSchema")
  | _ => .error (.zodError "output does not match outputSchema")

/-- The `switch (stepState.type)` of the transcript loop (source lines
93-119): the optional system-message content derived from a completed step's
state.  `formatOutput` may throw, hence the `Except`. -/
def stepContent (g : BasicNextStepGenerator) (step : Step) :
    Except AgentError (Option String) :=
  match step.state with
  | .failed summary => .ok (some ("ERROR:\n" ++ summary))
  | .succeeded none _ => .ok none
  | .succeeded (some output) summary =>
    match g.resultFormatterRegistry.getResultFormatter step.type with
    | none => .ok (some (Json.stringify output))
    | some resultFormatter =>
        (formatOutput resultFormatter (.succeeded (some output) summary)).map some

/-- The assistant message re-anchoring the model on its own prior output
(source lines 86-91): present exactly when the step carries generatedText. -/
def assistantMessages (step : Step) : List OpenAIChatMessage :=
  match step.generatedText with
  | some t => [⟨"assistant", t⟩]
  | none => []

/-- The messages one loop iteration pushes for one completed step: the
assistant message (when generatedText is present) followed by the derived
system message (when content was produced). -/
def stepMessages (g : BasicNextStepGenerator) (step : Step) :
    Except AgentError (List OpenAIChatMessage) := do
  let content? ← stepContent g step
  match content? with
  | some c => pure (assistantMessages step ++ [⟨"system", c⟩])
  | none => pure (assistantMessages step)

/-- The transcript loop over the completed steps, in order; the first
thrown error aborts the whole construction. -/
def buildStepMessages (g : BasicNextStepGenerator) :
    List Step → Except AgentError (List OpenAIChatMessage)
  | [] => .ok []
  | step :: rest => do
      let ms ← stepMessages g step
      let rest ← buildStepMessages g rest
      pure (ms ++ rest)

/-- `generateMessages` (source lines 62-130): the initial system and user
messages followed by the per-step messages.  A zod validation error thrown
by `formatOutput` propagates out of the construction. -/
def generateMessages (g : BasicNextStepGenerator) (completedSteps : List Step)
    (run : AgentRun) : Except AgentError (List OpenAIChatMessage) := do
  let stepMsgs ← buildStepMessages g completedSteps
  pure (initialMessages g run ++ stepMsgs)

/-- The state threaded through the state-passing rendering of the
`generateMessages` body: the caller-owned completed-steps array, the run
record, and the local `messages` array being pushed to. -/
structure MsgBuildState where
  completedSteps : List Step
  run : AgentRun
  messages : List OpenAIChatMessage
deriving Repr

/-- State-passing rendering of the `for (const step of completedSteps)` loop
(source lines 84-127): the first argument is the iterator's remaining
elements (the snapshot `for..of` walks); each iteration only pushes onto the
local `messages` array of the threaded state. -/
def generateMessagesLoop (g : BasicNextStepGenerator) :
    List Step → MsgBuildState → Except AgentError MsgBuildState
  | [], st => .ok st
  | step :: rest, st => do
      let afterAssistant : MsgBuildState :=
        match step.generatedText with
        | some t => { st with messages := st.messages ++ [⟨"assistant", t⟩] }
        | none => st
      let content? ← stepContent g step
      let afterContent : MsgBuildState :=
        match content? with
        | some c =>
            { afterAssistant with
                messages := afterAssistant.messages ++ [⟨"system", c⟩] }
        | none => afterAssistant
      generateMessagesLoop g rest afterContent

/-- State-passing rendering of `generateMessages`: start the local
`messages` array from the initial system and user messages, then run the
loop over the completed steps read from the state. -/
def generateMessagesST (g : BasicNextStepGenerator) (st : MsgBuildState) :
    Except AgentError MsgBuildState :=
  generateMessagesLoop g st.completedSteps
    { st with messages := st.messages ++ initialMessages g st.run }

/-- The event trace a call to `generateNextStep` produces: the two observer
hook invocations and the call to the text generator. -/
inductive Event where
  | stepGenerationStarted (messages : List OpenAIChatMessage)
  | textGeneratorCalled (messages : List OpenAIChatMessage)
  | stepGenerationFinished (generatedText : String) (step : Step)
deriving Repr

/-- Whether an event is an `onStepGenerationStarted` invocation. -/
def Event.isStarted : Event → Bool
  | .stepGenerationStarted _ => true
  | _ => false

/-- Whether an event is the text-generator (model) call. -/
def Event.isModelCall : Event → Bool
  | .textGeneratorCalled _ => true
  | _ => false

/-- Whether an event is an `onStepGenerationFinished` invocation. -/
def Event.isFinished : Event → Bool
  | .stepGenerationFinished _ _ => true
  | _ => false

/-- `generateNextStep` (source lines 154-198), returning the event trace and
the outcome.  `generateMessages` runs first (an error there propagates with
no events); the started hook fires when an observer is attached; the text
generator is called (its rejection propagates); the raw text is parsed (a
parse error propagates); then either a `NoopStep` is produced, or the action
is looked up and asked to create the step with lookup/creation failures
captured into an `ErrorStep`; finally the finished hook fires. -/
def generateNextStep (g : BasicNextStepGenerator) (completedSteps : List Step)
    (run : AgentRun) : List Event × Except AgentError Step :=
  match generateMessages g completedSteps run with
  | .error e => ([], .error e)
  | .ok messages =>
    let startEvents : List Event :=
      if run.observerPresent then [.stepGenerationStarted messages] else []
    match g.textGenerator.generateText messages run with
    | .error e => (startEvents ++ [.textGeneratorCalled messages], .error e)
    | .ok generatedText =>
      match g.actionRegistry.format.parse generatedText with
      | .error e => (startEvents ++ [.textGeneratorCalled messages], .error e)
      | .ok actionParameters =>
        let step : Step :=
          match actionParameters.action with
          | none =>
              mkNoopStep "thought" generatedText actionParameters._freeText
          | some actionId =>
            match g.actionRegistry.getAction actionId with
            | .error error => mkErrorStep generatedText error
            | .ok action =>
              match action.createStep generatedText actionParameters with
              | .error error => mkErrorStep generatedText error
              | .ok s => s
        let finishEvents : List Event :=
          if run.observerPresent then
            [.stepGenerationFinished generatedText step]
          else []
        (startEvents ++ [.textGeneratorCalled messages] ++ finishEvents,
          .ok step)

/-- Definition following the spec's words, for comparison with the code's
behaviour: "the contributed system message is a default structural
serialization of `{summary, output}`" — the default (JSON.stringify)
serialisation of the object holding the summary and the output. -/
def specDefaultPairSerialization (summary : String) (output : Json) : String :=
  Json.stringify (.obj [("summary", .str summary), ("output", output)])

/-! Concrete instances used by witnesses and counterexamples. -/

/-- A format whose parse yields no action identifier (pure thought text). -/
def demoFormatThought : ActionFormat :=
  ⟨fun t => .ok ⟨none, t, []⟩⟩

/-- A format whose parse yields the action identifier `search`. -/
def demoFormatSearch : ActionFormat :=
  ⟨fun t => .ok ⟨some "search", t, []⟩⟩

/-- A text generator that always answers with the text `RAW`. -/
def demoTextGenerator : ChatTextGenerator :=
  ⟨fun _ _ => .ok "RAW"⟩

/-- A registry with no registered actions: every lookup throws. -/
def demoRegistryThought : ActionRegistry :=
  { getAvailableActionInstructions := "INSTR"
    format := demoFormatThought
    getAction := fun id => .error (.thrown ("No action " ++ id)) }

/-- A registry whose parse names `search` but whose lookup throws. -/
def demoRegistryUnknown : ActionRegistry :=
  { getAvailableActionInstructions := "INSTR"
    format := demoFormatSearch
    getAction := fun id => .error (.thrown ("No action " ++ id)) }

/-- An action handler whose createStep always rejects. -/
def failingAction : Action :=
  ⟨fun _ _ => .error (.thrown "createStep failed")⟩

/-- A registry whose parse names `search` and whose lookup returns the
always-failing handler. -/
def demoRegistryFailingCreate : ActionRegistry :=
  { getAvailableActionInstructions := "INSTR"
    format := demoFormatSearch
    getAction := fun _ => .ok failingAction }

/-- Orchestrator over the thought-only registry and no formatters. -/
def gPlain : BasicNextStepGenerator :=
  { role := "Researcher"
    constraints := "Be concise"
    actionRegistry := demoRegistryThought
    textGenerator := demoTextGenerator
    resultFormatterRegistry := .empty }

/-- Orchestrator whose model text names an unregistered action. -/
def gUnknown : BasicNextStepGenerator :=
  { gPlain with actionRegistry := demoRegistryUnknown }

/-- Orchestrator whose named action's createStep rejects. -/
def gFailingCreate : BasicNextStepGenerator :=
  { gPlain with actionRegistry := demoRegistryFailingCreate }

/-- A formatter accepting only string outputs. -/
def demoFormatter : ResultFormatter :=
  { outputSchema := fun j => match j with | .str _ => true | _ => false
    formatResult := fun s _ => "FORMATTED:" ++ s }

/-- A formatter registry mapping the step type `search` to `demoFormatter`. -/
def demoFormatterRegistry : ResultFormatterRegistry :=
  ⟨fun t => if t = "search" then some demoFormatter else none⟩

/-- Orchestrator with the `search` formatter registered. -/
def gFormatter : BasicNextStepGenerator :=
  { gPlain with resultFormatterRegistry := demoFormatterRegistry }

/-- A demo run with an attached observer. -/
def runDemo : AgentRun :=
  ⟨"Find X", true⟩

/-- A succeeded `search` step with numeric output. -/
def stepOutNum : Step :=
  ⟨"search", none, .succeeded (some (.num 1)) "found it"⟩

/-- A succeeded `search` step with string output. -/
def stepOutStr : Step :=
  ⟨"search", none, .succeeded (some (.str "page")) "found it"⟩

/-- A failed step with no generated text. -/
def stepFailedDemo : Step :=
  ⟨"search", none, .failed "boom"⟩

/-! Claim theorems. -/

/-- C8: constructing the generator with any of role, constraints,
actionRegistry or textGenerator missing (null/undefined) throws immediately
at construction (the check order of the source decides which message), while
omitting resultFormatterRegistry succeeds and the instance holds an empty
formatter registry. -/
theorem construct_requires_fields :
    (∀ c ar tg rfr, BasicNextStepGenerator.construct none c ar tg rfr =
      .error (.thrown "role is required")) ∧
    (∀ r ar tg rfr,
      BasicNextStepGenerator.construct (some r) none ar tg rfr =
      .error (.thrown "constraints is required")) ∧
    (∀ r c tg rfr,
      BasicNextStepGenerator.construct (some r) (some c) none tg rfr =
      .error (.thrown "actionRegistry is required")) ∧
    (∀ r c ar rfr,
      BasicNextStepGenerator.construct (some r) (some c) (some ar) none rfr =
      .error (.thrown "textGenerator is required")) ∧
    (∀ r c ar tg, ∃ g,
      BasicNextStepGenerator.construct (some r) (some c) (some ar) (some tg)
        none = .ok g ∧
      ∀ t, g.resultFormatterRegistry.getResultFormatter t = none) :=
  ⟨fun _ _ _ _ => rfl, fun _ _ _ _ => rfl, fun _ _ _ _ => rfl,
   fun _ _ _ _ => rfl,
   fun r c ar tg =>
     ⟨{ role := r, constraints := c, actionRegistry := ar,
        textGenerator := tg,
        resultFormatterRegistry := ResultFormatterRegistry.empty },
      rfl, fun _ => rfl⟩⟩

/-- C9: the construction-time check rejects only null/undefined, so any
non-null role and constraints — the empty string included — and non-null
registries/generator make the constructor return normally. -/
theorem construct_accepts_empty_strings (role constraints : String)
    (ar : ActionRegistry) (tg : ChatTextGenerator)
    (rfr : Option ResultFormatterRegistry) :
    BasicNextStepGenerator.construct (some role) (some constraints) (some ar)
      (some tg) rfr =
    .ok { role := role, constraints := constraints, actionRegistry := ar,
          textGenerator := tg,
          resultFormatterRegistry := rfr.getD ResultFormatterRegistry.empty } :=
  rfl

/-- C4: whenever `generateMessages` returns a transcript, its first two
messages are, in order, a system message containing the role text, the
constraints text and the registry's action instructions, then a user message
containing the task instructions verbatim. -/
theorem generateMessages_head (g : BasicNextStepGenerator)
    (completedSteps : List Step) (run : AgentRun)
    (msgs : List OpenAIChatMessage)
    (h : generateMessages g completedSteps run = .ok msgs) :
    ∃ rest, msgs = ⟨"system", systemPrompt g⟩ ::
        ⟨"user", "## TASK\n" ++ run.instructions⟩ :: rest ∧
      (∃ a b, systemPrompt g = a ++ g.role ++ b) ∧
      (∃ a b, systemPrompt g = a ++ g.constraints ++ b) ∧
      (∃ a, systemPrompt g =
        a ++ g.actionRegistry.getAvailableActionInstructions) ∧
      (∃ a, "## TASK\n" ++ run.instructions = a ++ run.instructions) := by
  cases hb : buildStepMessages g completedSteps with
  | error e => simp [generateMessages, hb, Except.bind] at h
  | ok l =>
    refine ⟨l, ?_, ?_, ?_, ?_, ⟨"## TASK\n", rfl⟩⟩
    · simp only [generateMessages, hb, bind, Except.bind, pure, Except.pure,
        initialMessages, List.cons_append, List.nil_append,
        Except.ok.injEq] at h
      exact h.symm
    · exact ⟨"## ROLE\n",
        "\n\n## CONSTRAINTS\n" ++ g.constraints ++
          ";\n\n## AVAILABLE ACTIONS\n" ++
          g.actionRegistry.getAvailableActionInstructions,
        by simp [systemPrompt, String.append_assoc]⟩
    · exact ⟨"## ROLE\n" ++ g.role ++ "\n\n## CONSTRAINTS\n",
        ";\n\n## AVAILABLE ACTIONS\n" ++
          g.actionRegistry.getAvailableActionInstructions,
        by simp [systemPrompt, String.append_assoc]⟩
    · exact ⟨"## ROLE\n" ++ g.role ++ "\n\n## CONSTRAINTS\n" ++
        g.constraints ++ ";\n\n## AVAILABLE ACTIONS\n",
        by simp [systemPrompt, String.append_assoc]⟩

/-- Witness for C4 at a concrete orchestrator and empty step history. -/
theorem generateMessages_head_witness :
    ∃ rest, initialMessages gPlain runDemo =
        ⟨"system", systemPrompt gPlain⟩ ::
        ⟨"user", "## TASK\n" ++ runDemo.instructions⟩ :: rest ∧
      (∃ a b, systemPrompt gPlain = a ++ gPlain.role ++ b) ∧
      (∃ a b, systemPrompt gPlain = a ++ gPlain.constraints ++ b) ∧
      (∃ a, systemPrompt gPlain =
        a ++ gPlain.actionRegistry.getAvailableActionInstructions) ∧
      (∃ a, "## TASK\n" ++ runDemo.instructions = a ++ runDemo.instructions) :=
  generateMessages_head gPlain [] runDemo (initialMessages gPlain runDemo) rfl

/-- C5: a completed step with state `failed {summary := S}` and absent
generatedText contributes exactly one message — a system message whose
content is exactly `ERROR:` newline `S`. -/
theorem failedStep_message (g : BasicNextStepGenerator) (step : Step)
    (S : String) (run : AgentRun)
    (hgen : step.generatedText = none) (hstate : step.state = .failed S) :
    stepMessages g step = .ok [⟨"system", "ERROR:\n" ++ S⟩] ∧
    generateMessages g [step] run =
      .ok (initialMessages g run ++ [⟨"system", "ERROR:\n" ++ S⟩]) := by
  have h1 : stepContent g step = .ok (some ("ERROR:\n" ++ S)) := by
    simp [stepContent, hstate]
  have h2 : stepMessages g step = .ok [⟨"system", "ERROR:\n" ++ S⟩] := by
    simp [stepMessages, h1, assistantMessages, hgen, bind, Except.bind, pure,
      Except.pure]
  refine ⟨h2, ?_⟩
  simp [generateMessages, buildStepMessages, h2, bind, Except.bind, pure,
    Except.pure]

/-- Witness for C5 at a concrete failed step. -/
theorem failedStep_message_witness :
    stepMessages gPlain stepFailedDemo = .ok [⟨"system", "ERROR:\nboom"⟩] ∧
    generateMessages gPlain [stepFailedDemo] runDemo =
      .ok (initialMessages gPlain runDemo ++ [⟨"system", "ERROR:\nboom"⟩]) :=
  failedStep_message gPlain stepFailedDemo "boom" runDemo rfl rfl

/-- C2 amended: for a succeeded step with present output and no registered
formatter, the contributed system message is the default serialisation
(JSON.stringify) of the step's output alone — the summary is not part of
the message. -/
theorem succeededStep_noFormatter_serializesOutput (g : BasicNextStepGenerator)
    (step : Step) (output : Json) (summary : String) (run : AgentRun)
    (hrf : g.resultFormatterRegistry.getResultFormatter step.type = none)
    (hstate : step.state = .succeeded (some output) summary) :
    stepContent g step = .ok (some (Json.stringify output)) ∧
    stepMessages g step =
      .ok (assistantMessages step ++ [⟨"system", Json.stringify output⟩]) ∧
    generateMessages g [step] run =
      .ok (initialMessages g run ++
        (assistantMessages step ++ [⟨"system", Json.stringify output⟩])) := by
  have h1 : stepContent g step = .ok (some (Json.stringify output)) := by
    simp [stepContent, hstate, hrf]
  have h2 : stepMessages g step =
      .ok (assistantMessages step ++ [⟨"system", Json.stringify output⟩]) := by
    simp [stepMessages, h1, bind, Except.bind, pure, Except.pure]
  exact ⟨h1, h2, by
    simp [generateMessages, buildStepMessages, h2, bind, Except.bind, pure,
      Except.pure]⟩

/-- Witness for the amended C2 at a concrete numeric-output step. -/
theorem succeededStep_noFormatter_serializesOutput_witness :
    stepContent gPlain stepOutNum = .ok (some (Json.stringify (.num 1))) ∧
    stepMessages gPlain stepOutNum =
      .ok (assistantMessages stepOutNum ++
        [⟨"system", Json.stringify (.num 1)⟩]) ∧
    generateMessages gPlain [stepOutNum] runDemo =
      .ok (initialMessages gPlain runDemo ++
        (assistantMessages stepOutNum ++
          [⟨"system", Json.stringify (.num 1)⟩])) :=
  succeededStep_noFormatter_serializesOutput gPlain stepOutNum (.num 1)
    "found it" runDemo rfl rfl

/-- Counterexample to C2 as stated: for the succeeded step with output 1 and
summary `found it` and no registered formatter, the contributed system
message is `1` — the serialisation of the output alone — which differs from
the default structural serialisation of the pair of summary and output. -/
theorem succeededStep_pairSerialization_counterexample :
    gPlain.resultFormatterRegistry.getResultFormatter stepOutNum.type = none ∧
    stepOutNum.state = .succeeded (some (.num 1)) "found it" ∧
    stepMessages gPlain stepOutNum = .ok [⟨"system", "1"⟩] ∧
    generateMessages gPlain [stepOutNum] runDemo =
      .ok (initialMessages gPlain runDemo ++ [⟨"system", "1"⟩]) ∧
    "1" ≠ specDefaultPairSerialization "found it" (.num 1) :=
  ⟨rfl, rfl, rfl, rfl, by decide⟩

/-- C7: for a succeeded step with present output and a registered formatter,
the contributed message is the formatter's formatResult output, after the
output is validated against the declared schema; a validation failure is
raised out of transcript construction — it is neither rendered into the
transcript nor absorbed into an error Step (generateNextStep propagates the
validation error and produces no step and no events). -/
theorem formatOutput_validation_contract (g : BasicNextStepGenerator)
    (step : Step) (resultFormatter : ResultFormatter) (output : Json)
    (summary : String) (run : AgentRun)
    (hrf : g.resultFormatterRegistry.getResultFormatter step.type =
      some resultFormatter)
    (hstate : step.state = .succeeded (some output) summary) :
    (resultFormatter.outputSchema output = true →
      stepContent g step =
        .ok (some (resultFormatter.formatResult summary output)) ∧
      stepMessages g step =
        .ok (assistantMessages step ++
          [⟨"system", resultFormatter.formatResult summary output⟩])) ∧
    (resultFormatter.outputSchema output = false →
      stepContent g step =
        .error (.zodError "output does not match outputSchema") ∧
      generateMessages g [step] run =
        .error (.zodError "output does not match outputSchema") ∧
      generateNextStep g [step] run =
        ([], .error (.zodError "output does not match outputSchema"))) := by
  constructor
  · intro hvalid
    have h1 : stepContent g step =
        .ok (some (resultFormatter.formatResult summary output)) := by
      simp [stepContent, hstate, hrf, formatOutput, hvalid, Except.map]
    exact ⟨h1, by simp [stepMessages, h1, bind, Except.bind, pure, Except.pure]⟩
  · intro hinvalid
    have h1 : stepContent g step =
        .error (.zodError "output does not match outputSchema") := by
      simp [stepContent, hstate, hrf, formatOutput, hinvalid, Except.map]
    have h2 : generateMessages g [step] run =
        .error (.zodError "output does not match outputSchema") := by
      simp [generateMessages, buildStepMessages, stepMessages, h1, bind,
        Except.bind, pure, Except.pure]
    exact ⟨h1, h2, by simp [generateNextStep, h2]⟩

/-- Witness for C7: the registered formatter renders a valid string output,
and a numeric output violating the schema raises the validation error. -/
theorem formatOutput_validation_contract_witness :
    (stepContent gFormatter stepOutStr =
      .ok (some (demoFormatter.formatResult "found it" (.str "page"))) ∧
     stepMessages gFormatter stepOutStr =
      .ok (assistantMessages stepOutStr ++
        [⟨"system", demoFormatter.formatResult "found it" (.str "page")⟩])) ∧
    (stepContent gFormatter stepOutNum =
      .error (.zodError "output does not match outputSchema") ∧
     generateMessages gFormatter [stepOutNum] runDemo =
      .error (.zodError "output does not match outputSchema") ∧
     generateNextStep gFormatter [stepOutNum] runDemo =
      ([], .error (.zodError "output does not match outputSchema"))) :=
  ⟨(formatOutput_validation_contract gFormatter stepOutStr demoFormatter
      (.str "page") "found it" runDemo rfl rfl).1 rfl,
   (formatOutput_validation_contract gFormatter stepOutNum demoFormatter
      (.num 1) "found it" runDemo rfl rfl).2 rfl⟩

/-- C1: when the parser returns an action identifier, both a failing registry
lookup and a rejecting createStep make generateNextStep return (not throw)
an error Step whose generatedText is the raw model text and which carries
the captured failure. -/
theorem generateNextStep_actionFailure_errorStep (g : BasicNextStepGenerator)
    (completedSteps : List Step) (run : AgentRun)
    (messages : List OpenAIChatMessage) (generatedText : String)
    (actionParameters : ActionParameters) (actionId : String)
    (hmsgs : generateMessages g completedSteps run = .ok messages)
    (htext : g.textGenerator.generateText messages run = .ok generatedText)
    (hparse : g.actionRegistry.format.parse generatedText =
      .ok actionParameters)
    (hact : actionParameters.action = some actionId) :
    (∀ e, g.actionRegistry.getAction actionId = .error e →
      (generateNextStep g completedSteps run).2 =
        .ok (mkErrorStep generatedText e) ∧
      (mkErrorStep generatedText e).generatedText = some generatedText ∧
      (mkErrorStep generatedText e).state = .failed e.message) ∧
    (∀ action e, g.actionRegistry.getAction actionId = .ok action →
      action.createStep generatedText actionParameters = .error e →
      (generateNextStep g completedSteps run).2 =
        .ok (mkErrorStep generatedText e) ∧
      (mkErrorStep generatedText e).generatedText = some generatedText ∧
      (mkErrorStep generatedText e).state = .failed e.message) := by
  constructor
  · intro e hlook
    refine ⟨?_, rfl, rfl⟩
    simp [generateNextStep, hmsgs, htext, hparse, hact, hlook]
  · intro action e hlook hcreate
    refine ⟨?_, rfl, rfl⟩
    simp [generateNextStep, hmsgs, htext, hparse, hact, hlook, hcreate]

/-- Witness for C1: an unknown action identifier and a rejecting createStep,
each absorbed into an error Step. -/
theorem generateNextStep_actionFailure_errorStep_witness :
    (generateNextStep gUnknown [] runDemo).2 =
      .ok (mkErrorStep "RAW" (.thrown "No action search")) ∧
    (generateNextStep gFailingCreate [] runDemo).2 =
      .ok (mkErrorStep "RAW" (.thrown "createStep failed")) :=
  ⟨((generateNextStep_actionFailure_errorStep gUnknown [] runDemo
      (initialMessages gUnknown runDemo) "RAW" ⟨some "search", "RAW", []⟩
      "search" rfl rfl rfl rfl).1 (.thrown "No action search") rfl).1,
   ((generateNextStep_actionFailure_errorStep gFailingCreate [] runDemo
      (initialMessages gFailingCreate runDemo) "RAW" ⟨some "search", "RAW", []⟩
      "search" rfl rfl rfl rfl).2 failingAction (.thrown "createStep failed")
      rfl rfl).1⟩

/-- C6: when the parser returns a record with no action identifier, the
returned Step is the no-op/thought Step whose generatedText is the raw
model text and whose summary is the parser's free-text field. -/
theorem generateNextStep_noAction_noopStep (g : BasicNextStepGenerator)
    (completedSteps : List Step) (run : AgentRun)
    (messages : List OpenAIChatMessage) (generatedText : String)
    (actionParameters : ActionParameters)
    (hmsgs : generateMessages g completedSteps run = .ok messages)
    (htext : g.textGenerator.generateText messages run = .ok generatedText)
    (hparse : g.actionRegistry.format.parse generatedText =
      .ok actionParameters)
    (hact : actionParameters.action = none) :
    (generateNextStep g completedSteps run).2 =
      .ok (mkNoopStep "thought" generatedText actionParameters._freeText) ∧
    (mkNoopStep "thought" generatedText
      actionParameters._freeText).generatedText = some generatedText ∧
    (mkNoopStep "thought" generatedText actionParameters._freeText).summary =
      actionParameters._freeText ∧
    (mkNoopStep "thought" generatedText actionParameters._freeText).type =
      "thought" := by
  refine ⟨?_, rfl, rfl, rfl⟩
  simp [generateNextStep, hmsgs, htext, hparse, hact]

/-- Witness for C6: the thought-only model answer produces the noop step. -/
theorem generateNextStep_noAction_noopStep_witness :
    (generateNextStep gPlain [] runDemo).2 =
      .ok (mkNoopStep "thought" "RAW" "RAW") :=
  (generateNextStep_noAction_noopStep gPlain [] runDemo
    (initialMessages gPlain runDemo) "RAW" ⟨none, "RAW", []⟩
    rfl rfl rfl rfl).1

/-- C3: on a run with an attached observer, every call that reaches the
model call fires onStepGenerationStarted exactly once and before the text
generator is invoked, and whenever a resulting Step is determined — the
error-Step path included — onStepGenerationFinished fires exactly once,
after the call, with that Step. -/
theorem generateNextStep_observer_hooks (g : BasicNextStepGenerator)
    (completedSteps : List Step) (run : AgentRun)
    (messages : List OpenAIChatMessage)
    (hobs : run.observerPresent = true)
    (hmsgs : generateMessages g completedSteps run = .ok messages) :
    (generateNextStep g completedSteps run).1.countP Event.isStarted = 1 ∧
    (generateNextStep g completedSteps run).1.countP Event.isModelCall = 1 ∧
    (∃ tail, (generateNextStep g completedSteps run).1 =
      Event.stepGenerationStarted messages ::
        Event.textGeneratorCalled messages :: tail) ∧
    (∀ step, (generateNextStep g completedSteps run).2 = .ok step →
      ∃ text, (generateNextStep g completedSteps run).1 =
        [Event.stepGenerationStarted messages,
         Event.textGeneratorCalled messages,
         Event.stepGenerationFinished text step]) := by
  cases htext : g.textGenerator.generateText messages run with
  | error e =>
    simp [generateNextStep, hmsgs, hobs, htext, List.countP, List.countP.go,
      Event.isStarted, Event.isModelCall]
  | ok generatedText =>
    cases hparse : g.actionRegistry.format.parse generatedText with
    | error e =>
      simp [generateNextStep, hmsgs, hobs, htext, hparse, List.countP,
        List.countP.go, Event.isStarted, Event.isModelCall]
    | ok actionParameters =>
      refine ⟨?_, ?_, ?_, ?_⟩ <;>
        simp [generateNextStep, hmsgs, hobs, htext, hparse, List.countP,
          List.countP.go, Event.isStarted, Event.isModelCall]

/-- Witness for C3 on the thought path of the demo orchestrator. -/
theorem generateNextStep_observer_hooks_witness :
    (generateNextStep gPlain [] runDemo).1.countP Event.isStarted = 1 ∧
    (generateNextStep gPlain [] runDemo).1.countP Event.isModelCall = 1 ∧
    (∃ tail, (generateNextStep gPlain [] runDemo).1 =
      Event.stepGenerationStarted (initialMessages gPlain runDemo) ::
        Event.textGeneratorCalled (initialMessages gPlain runDemo) :: tail) ∧
    (∀ step, (generateNextStep gPlain [] runDemo).2 = .ok step →
      ∃ text, (generateNextStep gPlain [] runDemo).1 =
        [Event.stepGenerationStarted (initialMessages gPlain runDemo),
         Event.textGeneratorCalled (initialMessages gPlain runDemo),
         Event.stepGenerationFinished text step]) :=
  generateNextStep_observer_hooks gPlain [] runDemo
    (initialMessages gPlain runDemo) rfl rfl

/-- The state-passing loop agrees with the functional per-step construction
and only ever extends the local messages array: its result keeps the
completed-steps array and the run of the incoming state. -/
theorem generateMessagesLoop_eq (g : BasicNextStepGenerator)
    (cursor : List Step) (st : MsgBuildState) :
    generateMessagesLoop g cursor st =
      (buildStepMessages g cursor).map
        fun l => ⟨st.completedSteps, st.run, st.messages ++ l⟩ := by
  induction cursor generalizing st with
  | nil =>
    simp [generateMessagesLoop, buildStepMessages, Except.map]
  | cons step rest ih =>
    cases hc : stepContent g step with
    | error e =>
      simp [generateMessagesLoop, buildStepMessages, stepMessages, hc,
        Except.map, bind, Except.bind]
    | ok content? =>
      simp only [generateMessagesLoop, buildStepMessages, stepMessages, hc,
        bind, Except.bind, ih]
      cases content? <;> cases hgen : step.generatedText <;>
        simp [assistantMessages, hgen, Except.map, pure, Except.pure] <;>
        cases hb : buildStepMessages g rest <;>
        simp [Except.map, List.append_assoc]

/-- C10: generateMessages is a pure reader of its inputs — the state-passing
rendering of its body returns the completed-steps array and the run exactly
as it received them, its messages are the freshly built array the functional
definition computes, and the result does not depend on the run's observer. -/
theorem generateMessages_pure_reader (g : BasicNextStepGenerator)
    (completedSteps : List Step) (run : AgentRun) :
    (∀ st', generateMessagesST g ⟨completedSteps, run, []⟩ = .ok st' →
      st'.completedSteps = completedSteps ∧ st'.run = run ∧
      generateMessages g completedSteps run = .ok st'.messages) ∧
    (∀ observerPresent1 observerPresent2,
      generateMessages g completedSteps ⟨run.instructions, observerPresent1⟩ =
      generateMessages g completedSteps
        ⟨run.instructions, observerPresent2⟩) := by
  constructor
  · intro st' h
    rw [generateMessagesST, generateMessagesLoop_eq] at h
    cases hb : buildStepMessages g completedSteps with
    | error e => simp [hb, Except.map] at h
    | ok l =>
      simp only [hb, Except.map, Except.ok.injEq] at h
      subst h
      refine ⟨rfl, rfl, ?_⟩
      simp [generateMessages, hb, bind, Except.bind, pure, Except.pure]
  · intro o1 o2
    rfl

/-- The state the state-passing rendering reaches on the demo failed step. -/
def st10 : MsgBuildState :=
  ⟨[stepFailedDemo], runDemo,
    initialMessages gPlain runDemo ++ [⟨"system", "ERROR:\nboom"⟩]⟩

/-- Witness for C10 on the demo failed step. -/
theorem generateMessages_pure_reader_witness :
    st10.completedSteps = [stepFailedDemo] ∧
    st10.run = runDemo ∧
    generateMessages gPlain [stepFailedDemo] runDemo = .ok st10.messages :=
  (generateMessages_pure_reader gPlain [stepFailedDemo] runDemo).1 st10
    (by rfl)

end AgentCore
